import Mathlib

/-!
Verification development for `examples/simulation-closed-kinematic-chains.py`,
a pinocchio usage example that assembles a four-bar closed kinematic chain,
solves an inverse-kinematics problem by a Newton-type loop around a
constraint-consistent KKT (Cholesky) solve, and then runs a fixed-step
contact-dynamics simulation loop.

The script is shallowly embedded here.  Library-native computations
(Jacobians, the KKT factorization/solve, `pin.integrate`,
`pin.contactDynamics`) are modelled as abstract oracle functions; the
script's own glue logic - model construction, the loop structure, the
residual checks, the variable updates, the angle wrap - is translated
statement by statement from the source.  Scalar arithmetic performed by the
script itself is modelled over `ℚ` (exact arithmetic standing in for the
floats of the source), except for the final wrap `(q + pi) % pi - pi`
which involves `π` and is modelled over `ℝ`.
-/

namespace FourBar

/-! ## Data model: joints, geometries, placements (translated from the source) -/

/-- Joint models used by the script: only `pin.JointModelRY` appears. -/
inductive JointType
  | RY
  deriving DecidableEq, Repr

/-- Collision shapes built by the script (`fcl.Capsule radius length`;
the `fcl.Box` variants are present but commented out in the source). -/
inductive ShapeT
  | Capsule (radius length : ℚ)
  | Box (x y z : ℚ)
  deriving DecidableEq, Repr

/-- Rotations appearing in the script's placements: either the identity or
`pin.Quaternion.FromTwoVectors(pin.ZAxis, pin.XAxis)` (a fixed rotation
mapping the Z axis onto the X axis). -/
inductive RotT
  | Id
  | FromTwoVectorsZX
  deriving DecidableEq, Repr

/-- An SE(3) placement at the granularity the script uses: one of the two
rotations above together with a rational translation vector. -/
structure SE3m where
  rot : RotT
  trans : ℚ × ℚ × ℚ
  deriving DecidableEq, Repr

/-- Library call `pin.SE3.Identity()`. -/
def SE3m.identity : SE3m := ⟨RotT.Id, (0, 0, 0)⟩

/-- A spatial inertia as built by `pin.Inertia.FromBox(mass, x, y, z)`. -/
structure InertiaM where
  mass : ℚ
  x : ℚ
  y : ℚ
  z : ℚ
  deriving DecidableEq, Repr

/-- One joint record of the model: parent joint id, joint model,
placement relative to the parent, and name, as passed to `model.addJoint`. -/
structure Joint where
  parent : ℕ
  jtype : JointType
  placement : SE3m
  name : String
  deriving DecidableEq, Repr

/-- A body appended by `model.appendBodyToJoint(jointId, inertia, placement)`. -/
structure Body where
  jointId : ℕ
  inertia : InertiaM
  placement : SE3m
  deriving DecidableEq, Repr

/-- The kinematic model: the universe joint is implicit with id 0; joints
added by `addJoint` get ids 1, 2, ... in order of addition. -/
structure Model where
  joints : List Joint
  bodies : List Body
  deriving DecidableEq, Repr

/-- Library call `pin.Model()`. -/
def Model.empty : Model := ⟨[], []⟩

/-- Library call `model.addJoint(parent, jointModel, placement, name)`: appends the joint
and returns the new model together with the fresh joint id. -/
def Model.addJoint (m : Model) (parent : ℕ) (jt : JointType) (pl : SE3m)
    (name : String) : Model × ℕ :=
  (⟨m.joints ++ [⟨parent, jt, pl, name⟩], m.bodies⟩, m.joints.length + 1)

/-- Library call `model.appendBodyToJoint(jointId, inertia, placement)`. -/
def Model.appendBodyToJoint (m : Model) (jid : ℕ) (ine : InertiaM)
    (pl : SE3m) : Model :=
  ⟨m.joints, m.bodies ++ [⟨jid, ine, pl⟩]⟩

/-- Number of velocity degrees of freedom: each `JointModelRY` contributes 1. -/
def Model.nv (m : Model) : ℕ := m.joints.length

/-- A geometry object as built by
`pin.GeometryObject(name, parentJoint, shape, placement)` (the mesh color
set afterwards is also recorded). -/
structure GeomObj where
  name : String
  parentJoint : ℕ
  shape : ShapeT
  placement : SE3m
  meshColor : ℚ × ℚ × ℚ × ℚ
  deriving DecidableEq, Repr

/-- Model of `pin.GeometryModel()` with `addGeometryObject` appending in order. -/
structure GeometryModel where
  geoms : List GeomObj
  deriving DecidableEq, Repr

/-- Contact types of the library; the script uses `CONTACT_3D`. -/
inductive ContactType
  | CONTACT_3D
  | CONTACT_6D
  deriving DecidableEq, Repr

/-- Library structure `pin.RigidContactModel(type, joint1_id, joint1_placement,
joint2_id, joint2_placement)`. -/
structure RigidContactModel where
  ctype : ContactType
  joint1_id : ℕ
  joint1_placement : SE3m
  joint2_id : ℕ
  joint2_placement : SE3m
  deriving DecidableEq, Repr

/-- Library call `constraint_model.size()`: 3 for a 3D contact, 6 for a 6D contact. -/
def RigidContactModel.size (cm : RigidContactModel) : ℕ :=
  match cm.ctype with
  | ContactType.CONTACT_3D => 3
  | ContactType.CONTACT_6D => 6

/-! ## The construction sequence of the script (lines 8-67 and 92-100) -/

def height : ℚ := 1/10
def width : ℚ := 1/100
def radius : ℚ := 1/20

def mass_link_A : ℚ := 10
def length_link_A : ℚ := 1
def shape_link_A : ShapeT := ShapeT.Capsule radius length_link_A

def mass_link_B : ℚ := 5
def length_link_B : ℚ := 6/10
def shape_link_B : ShapeT := ShapeT.Capsule radius length_link_B

def inertia_link_A : InertiaM := ⟨mass_link_A, length_link_A, width, height⟩

/-- Source: `placement_center_link_A` has identity rotation, translation `X * length_link_A / 2`. -/
def placement_center_link_A : SE3m := ⟨RotT.Id, (length_link_A / 2, 0, 0)⟩

/-- Source: `placement_shape_A` is a copy of the center placement with rotation
`FromTwoVectors(Z, X)`. -/
def placement_shape_A : SE3m := ⟨RotT.FromTwoVectorsZX, (length_link_A / 2, 0, 0)⟩

def inertia_link_B : InertiaM := ⟨mass_link_B, length_link_B, width, height⟩

def placement_center_link_B : SE3m := ⟨RotT.Id, (length_link_B / 2, 0, 0)⟩

def placement_shape_B : SE3m := ⟨RotT.FromTwoVectorsZX, (length_link_B / 2, 0, 0)⟩

def RED_COLOR : ℚ × ℚ × ℚ × ℚ := (1, 0, 0, 1)
def WHITE_COLOR : ℚ × ℚ × ℚ × ℚ := (1, 1, 1, 1)

def base_joint_id : ℕ := 0

/-- Source: `geom_obj0 = GeometryObject("link_A1", base_joint_id, shape_link_A,
SE3(FromTwoVectors(Z,X), zeros(3)))` with white mesh color. -/
def geom_obj0 : GeomObj :=
  ⟨"link_A1", base_joint_id, shape_link_A, ⟨RotT.FromTwoVectorsZX, (0, 0, 0)⟩, WHITE_COLOR⟩

def joint1_placement : SE3m := ⟨RotT.Id, (length_link_A / 2, 0, 0)⟩

/-- Model state and fresh id after the first `addJoint` call. -/
def modelStep1 : Model × ℕ :=
  Model.empty.addJoint base_joint_id JointType.RY joint1_placement "link_B1"

def joint1_id : ℕ := modelStep1.2

def modelStep1b : Model :=
  modelStep1.1.appendBodyToJoint joint1_id inertia_link_B placement_center_link_B

def geom_obj1 : GeomObj :=
  ⟨"link_B1", joint1_id, shape_link_B, placement_shape_B, RED_COLOR⟩

def joint2_placement : SE3m := ⟨RotT.Id, (length_link_B, 0, 0)⟩

def modelStep2 : Model × ℕ :=
  modelStep1b.addJoint joint1_id JointType.RY joint2_placement "link_A2"

def joint2_id : ℕ := modelStep2.2

def modelStep2b : Model :=
  modelStep2.1.appendBodyToJoint joint2_id inertia_link_A placement_center_link_A

def geom_obj2 : GeomObj :=
  ⟨"link_A2", joint2_id, shape_link_A, placement_shape_A, WHITE_COLOR⟩

def joint3_placement : SE3m := ⟨RotT.Id, (length_link_A, 0, 0)⟩

def modelStep3 : Model × ℕ :=
  modelStep2b.addJoint joint2_id JointType.RY joint3_placement "link_B2"

def joint3_id : ℕ := modelStep3.2

/-- The final kinematic model built by the script. -/
def model : Model :=
  modelStep3.1.appendBodyToJoint joint3_id inertia_link_B placement_center_link_B

def geom_obj3 : GeomObj :=
  ⟨"link_B2", joint3_id, shape_link_B, placement_shape_B, RED_COLOR⟩

/-- The collision model: the four geometry objects added in order. -/
def collision_model : GeometryModel :=
  ⟨[geom_obj0, geom_obj1, geom_obj2, geom_obj3]⟩

/-- Source: `constraint1_joint1_placement` has identity rotation, translation
`X * length_link_B`. -/
def constraint1_joint1_placement : SE3m := ⟨RotT.Id, (length_link_B, 0, 0)⟩

/-- Source: `constraint1_joint2_placement` has identity rotation, translation
`- X * length_link_A / 2`. -/
def constraint1_joint2_placement : SE3m := ⟨RotT.Id, (-(length_link_A / 2), 0, 0)⟩

/-- The single rigid contact constraint closing the chain. -/
def constraint_model : RigidContactModel :=
  ⟨ContactType.CONTACT_3D, joint3_id, constraint1_joint1_placement,
    base_joint_id, constraint1_joint2_placement⟩

def constraint_dim : ℕ := constraint_model.size

/-! ## Inverse-kinematics loop (lines 103-136)

The library calls inside the loop - `computeJointJacobians` plus
`kkt_constraint.compute` (which writes `constraint_data.c1Mc2`),
`getFrameJacobian`, `kkt_constraint.solve` and `pin.integrate` - are
modelled by oracle functions.  Each is a function of the current
configuration `q` (the only script state the library reads back each
iteration; `data` is recomputed from `q` at the top of every pass).
Scalars are `ℚ`, standing in for exact real arithmetic. -/

/-- Value of `model.nv` for the assembled model: three single-dof revolute joints. -/
def nv : ℕ := 3

/-- Oracle for the library calls of the IK loop. -/
structure IKOracle where
  /-- Value of `constraint_data.c1Mc2.translation` after
  `computeJointJacobians` + `kkt_constraint.compute` at configuration `q`. -/
  constraintValue : (Fin nv → ℚ) → Fin 3 → ℚ
  /-- Library call `pin.getFrameJacobian(...)[:3,:]` at configuration `q`. -/
  Jmat : (Fin nv → ℚ) → Fin 3 → Fin nv → ℚ
  /-- Library call `kkt_constraint.solve(rhs)` with the factorization computed at `q`. -/
  kktSolve : (Fin nv → ℚ) → (Fin (3 + nv) → ℚ) → Fin (3 + nv) → ℚ
  /-- Library call `pin.integrate(model, q, dq)`. -/
  integrate : (Fin nv → ℚ) → (Fin nv → ℚ) → Fin nv → ℚ

/-- The script state threaded through the IK loop: the configuration `q`
and the dual variable `y`. -/
structure IKState where
  q : Fin nv → ℚ
  y : Fin 3 → ℚ

def rho : ℚ := 1/10^10
def mu : ℚ := 1/10^4
def eps : ℚ := 1/10^10

/-- Source: `N = 100`, the fixed IK iteration bound. -/
def N : ℕ := 100

/-- Source: `alpha = 1.`, the step size of the IK update. -/
def alpha : ℚ := 1

/-- Source: `q0 = pin.neutral(model)`; the neutral configuration of a chain of
revolute joints is the zero vector. -/
def q0 : Fin nv → ℚ := fun _ => 0

/-- Initial IK state: `q = q0.copy()`, `y = np.ones(constraint_dim)`. -/
def ikInit : IKState := ⟨q0, fun _ => 1⟩

instance : NeZero nv := ⟨by decide⟩

/-- Infinity norm `np.linalg.norm(v, np.inf)` of a nonempty vector. -/
def infNorm {n : ℕ} [NeZero n] (v : Fin n → ℚ) : ℚ :=
  Finset.univ.sup' (Finset.univ_nonempty) fun i => |v i|

/-- Source: `primal_feas = norm(constraint_value, inf)`. -/
def primal_feas (o : IKOracle) (s : IKState) : ℚ :=
  infNorm (o.constraintValue s.q)

/-- Source: `dual_feas = norm(J.T.dot(constraint_value + y), inf)`. -/
def dual_feas (o : IKOracle) (s : IKState) : ℚ :=
  infNorm (fun j : Fin nv => ∑ i : Fin 3,
    o.Jmat s.q i j * (o.constraintValue s.q i + s.y i))

/-- The break condition `primal_feas < eps and dual_feas < eps`. -/
def convergedCheck (o : IKOracle) (s : IKState) : Prop :=
  primal_feas o s < eps ∧ dual_feas o s < eps

instance (o : IKOracle) (s : IKState) : Decidable (convergedCheck o s) :=
  inferInstanceAs (Decidable (_ ∧ _))

/-- Source: `rhs = concatenate([-constraint_value - y*mu, zeros(model.nv)])`. -/
def rhsVec (o : IKOracle) (s : IKState) : Fin (3 + nv) → ℚ :=
  Fin.append (fun i => -(o.constraintValue s.q i) - s.y i * mu) (fun _ => 0)

/-- One full (non-breaking) IK loop body:
`dz = kkt.solve(rhs); dy = dz[:3]; dq = dz[3:];
q = integrate(model, q, -alpha*dq); y -= alpha*(-dy + y)`. -/
def ikStep (o : IKOracle) (s : IKState) : IKState :=
  let dz := o.kktSolve s.q (rhsVec o s)
  let dy : Fin 3 → ℚ := fun i => dz (Fin.castAdd nv i)
  let dq : Fin nv → ℚ := fun i => dz (Fin.natAdd 3 i)
  { q := o.integrate s.q (fun i => -(alpha * dq i))
    y := fun i => s.y i - alpha * (-(dy i) + s.y i) }

/-- The `for k in range(n)` loop with the early `break`.  Returns the final
state, whether the break fired (`"Convergence achieved"` was printed), and
the number of times the loop body was entered. -/
def ikLoop (o : IKOracle) : ℕ → IKState → IKState × Bool × ℕ
  | 0, s => (s, false, 0)
  | n + 1, s =>
    if convergedCheck o s then (s, true, 1)
    else
      let r := ikLoop o n (ikStep o s)
      (r.1, r.2.1, r.2.2 + 1)

/-- The IK phase as executed by the script: `ikLoop` with fuel `N = 100`
from the initial state. -/
def ikRun (o : IKOracle) : IKState × Bool × ℕ := ikLoop o N ikInit

/-- Python's `%` on reals with the `floor`-based convention used by
`numpy` for a positive modulus: `x % y = x - y * floor(x / y)`. -/
noncomputable def pymod (x y : ℝ) : ℝ := x - y * ⌊x / y⌋

/-- Source: `q_sol = (q[:] + np.pi) % np.pi - np.pi`, applied to the configuration
delivered by the IK loop, whatever the convergence flag was. -/
noncomputable def q_sol (o : IKOracle) : Fin nv → ℝ :=
  fun i => pymod (((ikRun o).1.q i : ℝ) + Real.pi) Real.pi - Real.pi

/-! ## Simulation loop (lines 144-158)

The simulation phase starts from `q = q_sol.copy()`, which is a vector of
reals (it involves `π`), so this phase is modelled over `ℝ`.  The two
library calls of the loop body, `pin.contactDynamics` and `pin.integrate`,
are oracle functions. -/

/-- Oracle for the library calls of the simulation loop. -/
structure SimOracle where
  /-- Value `a` returned by
  `pin.contactDynamics(model, data, q, v, tau, [cm], [cd], mu_sim)`. -/
  contactDynamics : (Fin nv → ℝ) → (Fin nv → ℝ) → (Fin nv → ℝ) → Fin nv → ℝ
  /-- Library call `pin.integrate(model, q, dq)` on real vectors. -/
  integrate : (Fin nv → ℝ) → (Fin nv → ℝ) → Fin nv → ℝ

/-- Source: `tau = np.zeros((model.nv))`, the constant input torque. -/
def tau : Fin nv → ℝ := fun _ => 0

/-- Source: `dt = 5e-3`, the fixed simulation time step. -/
noncomputable def dt : ℝ := 5/1000

/-- Source: `T_sim = 100000`, the simulated-time horizon of the loop guard. -/
noncomputable def T_sim : ℝ := 100000

noncomputable def mu_sim : ℝ := 1/10^10

/-- Source: `constraint_model.corrector.Kp = 10`. -/
def Kp : ℝ := 10

/-- Source: `constraint_model.corrector.Kd = 2 * sqrt(Kp)`. -/
noncomputable def Kd : ℝ := 2 * Real.sqrt Kp

/-- The script state threaded through the simulation loop. -/
structure SimState where
  q : Fin nv → ℝ
  v : Fin nv → ℝ
  t : ℝ

/-- Initial simulation state: `q = q_sol.copy()`, `v = zeros(nv)`, `t = 0`. -/
noncomputable def simInit (o : IKOracle) : SimState :=
  ⟨q_sol o, fun _ => 0, 0⟩

/-- One pass of the simulation loop body:
`a = contactDynamics(...); v += a*dt; q = integrate(model, q, v*dt);
viz.display(q); time.sleep(dt); t += dt`.  The configuration update uses
the velocity value already updated in the same pass. -/
noncomputable def simStep (os : SimOracle) (s : SimState) : SimState :=
  let a := os.contactDynamics s.q s.v tau
  let vNew : Fin nv → ℝ := fun i => s.v i + a i * dt
  let qNew : Fin nv → ℝ := os.integrate s.q (fun i => vNew i * dt)
  ⟨qNew, vNew, s.t + dt⟩

/-- The guard `t <= T_sim` of the `while` loop. -/
def simGuard (s : SimState) : Prop := s.t ≤ T_sim

/-! ## Event trace of the whole script

For the claims about phase ordering, printed diagnostics and the absence of
branching between phases, the script is additionally modelled as the list
of observable events it emits, in program order. -/

/-- Observable events of the script, tagged by the phase they belong to. -/
inductive Ev
  | buildModel
  | buildGeometry
  | vizSetup
  | vizDisplayInit
  | ikJacobians
  | ikKKTCompute
  | ikFeasCheck
  | ikPrintConvergence
  | ikPrintResidual
  | ikKKTSolve
  | ikIntegrate
  | ikDualUpdate
  | displayQsol
  | simContactDynamics
  | simVelUpdate
  | simConfigUpdate
  | simDisplay
  | simSleep
  deriving DecidableEq, Repr

/-- The four phases of the script. -/
inductive Phase
  | construction
  | visualizer
  | ik
  | simulation
  deriving DecidableEq, Repr

/-- Phase of each event. -/
def phase : Ev → Phase
  | Ev.buildModel => Phase.construction
  | Ev.buildGeometry => Phase.construction
  | Ev.vizSetup => Phase.visualizer
  | Ev.vizDisplayInit => Phase.visualizer
  | Ev.ikJacobians => Phase.ik
  | Ev.ikKKTCompute => Phase.ik
  | Ev.ikFeasCheck => Phase.ik
  | Ev.ikPrintConvergence => Phase.ik
  | Ev.ikPrintResidual => Phase.ik
  | Ev.ikKKTSolve => Phase.ik
  | Ev.ikIntegrate => Phase.ik
  | Ev.ikDualUpdate => Phase.ik
  | Ev.displayQsol => Phase.ik
  | Ev.simContactDynamics => Phase.simulation
  | Ev.simVelUpdate => Phase.simulation
  | Ev.simConfigUpdate => Phase.simulation
  | Ev.simDisplay => Phase.simulation
  | Ev.simSleep => Phase.simulation

/-- Events of the model/geometry construction (lines 8-67, 92-100). -/
def buildEvents : List Ev := [Ev.buildModel, Ev.buildGeometry]

/-- Events of the visualizer setup (lines 69-89), including the initial
`viz.display(q0)`. -/
def vizEvents : List Ev := [Ev.vizSetup, Ev.vizDisplayInit]

/-- Events of one IK iteration that hits the `break`: the Jacobians and
KKT factorization are computed, the residuals are checked, and
`"Convergence achieved"` is printed; no KKT solve follows. -/
def ikIterEventsConv : List Ev :=
  [Ev.ikJacobians, Ev.ikKKTCompute, Ev.ikFeasCheck, Ev.ikPrintConvergence]

/-- Events of one full IK iteration: after the residual check fails, the
residual norm is printed and the KKT solve plus both updates happen. -/
def ikIterEventsStep : List Ev :=
  [Ev.ikJacobians, Ev.ikKKTCompute, Ev.ikFeasCheck, Ev.ikPrintResidual,
    Ev.ikKKTSolve, Ev.ikIntegrate, Ev.ikDualUpdate]

/-- Events emitted by the IK `for` loop with the given fuel. -/
def ikEventsLoop (o : IKOracle) : ℕ → IKState → List Ev
  | 0, _ => []
  | n + 1, s =>
    if convergedCheck o s then ikIterEventsConv
    else ikIterEventsStep ++ ikEventsLoop o n (ikStep o s)

/-- Events of one simulation loop pass, in body order: dynamics call,
velocity update, configuration update, display, sleep. -/
def simIterEvents : List Ev :=
  [Ev.simContactDynamics, Ev.simVelUpdate, Ev.simConfigUpdate,
    Ev.simDisplay, Ev.simSleep]

/-- Events emitted by the `while t <= T_sim` loop, mirrored with fuel:
the guard is tested on the current `t`, the body events are emitted, and
`t` advances by `dt`. -/
noncomputable def simEventsLoop : ℕ → ℝ → List Ev
  | 0, _ => []
  | fuel + 1, t =>
    if t ≤ T_sim then simIterEvents ++ simEventsLoop fuel (t + dt)
    else []

/-- Fuel sufficient for the simulation loop: one more than the 20000001
iterations the guard admits. -/
def simFuel : ℕ := 20000002

/-- The full event trace of the script, in program order: construction,
visualizer setup, the IK loop, the unconditional display of `q_sol`, and
the simulation loop. -/
noncomputable def scriptEvents (o : IKOracle) : List Ev :=
  buildEvents ++ vizEvents ++ (ikEventsLoop o N ikInit ++ [Ev.displayQsol])
    ++ simEventsLoop simFuel 0

/-! ## Static inventory of external calls

For the claims about the absence of CLI input and of concurrency
primitives, the script's external calls are listed statically, in source
order (calls inside a loop body appear once).  The inventory type also has
constructors for the concurrency operations Python offers, so that their
absence from the script's list is a meaningful check. -/

/-- External calls a Python script of this kind could make.  The final six
constructors are concurrency/cancellation primitives; the script uses none
of them. -/
inductive LibCall
  | fclCapsule
  | inertiaFromBox
  | se3Identity
  | quaternionFromTwoVectors
  | pinModelNew
  | pinGeometryModelNew
  | geometryObjectNew
  | addGeometryObject
  | modelAddJoint
  | appendBodyToJoint
  | gepettoVisualizerNew
  | initViewer
  | loadViewerModel
  | getWindowID
  | setBackgroundColor
  | pinNeutral
  | vizDisplay
  | createData
  | forwardKinematics
  | rigidContactModelNew
  | createConstraintData
  | constraintSize
  | contactCholeskyDecompositionNew
  | computeJointJacobians
  | kktCompute
  | getFrameJacobian
  | numpyNorm
  | printDiagnostic
  | kktSolve
  | pinIntegrate
  | numpySqrt
  | initContactDynamics
  | contactDynamics
  | timeSleep
  | readArgv
  | readStdin
  | threadSpawn
  | processSpawn
  | lockAcquire
  | asyncTaskCreate
  | cancelOperation
  | timeoutOperation
  deriving DecidableEq, Repr

/-- Concurrency, cancellation and timeout primitives. -/
def isConcurrencyPrimitive : LibCall → Bool
  | LibCall.threadSpawn => true
  | LibCall.processSpawn => true
  | LibCall.lockAcquire => true
  | LibCall.asyncTaskCreate => true
  | LibCall.cancelOperation => true
  | LibCall.timeoutOperation => true
  | _ => false

/-- Calls that read the command line or standard input. -/
def isInputRead : LibCall → Bool
  | LibCall.readArgv => true
  | LibCall.readStdin => true
  | _ => false

/-- Every external call of the script, in source order.  Being a flat list,
it is totally ordered: each call completes before the next one starts. -/
def scriptCalls : List LibCall :=
  [LibCall.fclCapsule, LibCall.fclCapsule,
    LibCall.inertiaFromBox, LibCall.se3Identity,
    LibCall.quaternionFromTwoVectors,
    LibCall.inertiaFromBox, LibCall.se3Identity,
    LibCall.quaternionFromTwoVectors,
    LibCall.pinModelNew, LibCall.pinGeometryModelNew,
    LibCall.geometryObjectNew, LibCall.addGeometryObject,
    LibCall.se3Identity, LibCall.modelAddJoint, LibCall.appendBodyToJoint,
    LibCall.geometryObjectNew, LibCall.addGeometryObject,
    LibCall.se3Identity, LibCall.modelAddJoint, LibCall.appendBodyToJoint,
    LibCall.geometryObjectNew, LibCall.addGeometryObject,
    LibCall.se3Identity, LibCall.modelAddJoint, LibCall.appendBodyToJoint,
    LibCall.geometryObjectNew, LibCall.addGeometryObject,
    LibCall.gepettoVisualizerNew, LibCall.initViewer,
    LibCall.loadViewerModel, LibCall.getWindowID,
    LibCall.setBackgroundColor, LibCall.setBackgroundColor,
    LibCall.pinNeutral, LibCall.vizDisplay,
    LibCall.createData, LibCall.forwardKinematics,
    LibCall.se3Identity, LibCall.se3Identity,
    LibCall.rigidContactModelNew, LibCall.createConstraintData,
    LibCall.constraintSize,
    LibCall.contactCholeskyDecompositionNew,
    LibCall.computeJointJacobians, LibCall.kktCompute,
    LibCall.getFrameJacobian, LibCall.numpyNorm, LibCall.numpyNorm,
    LibCall.printDiagnostic, LibCall.kktSolve, LibCall.pinIntegrate,
    LibCall.vizDisplay,
    LibCall.numpySqrt, LibCall.initContactDynamics,
    LibCall.contactDynamics, LibCall.pinIntegrate,
    LibCall.vizDisplay, LibCall.timeSleep]

/-! ## The whole script as a function of its inputs

The script never touches `sys.argv` or standard input (the one `input()`
call in the source is commented out), so the run function below takes them
as arguments and never reads them. -/

/-- Everything the script computes and emits. -/
structure ScriptResult where
  ikFinalQ : Fin nv → ℚ
  ikFinalY : Fin 3 → ℚ
  ikConverged : Bool
  ikIterations : ℕ
  qsol : Fin nv → ℝ
  simTrajectory : ℕ → SimState
  events : List Ev

/-- The whole script, as a function of the command line, the standard
input contents, and the two library oracles. -/
noncomputable def runScript (_argv : List String) (_stdinContents : String)
    (o : IKOracle) (os : SimOracle) : ScriptResult :=
  { ikFinalQ := (ikRun o).1.q
    ikFinalY := (ikRun o).1.y
    ikConverged := (ikRun o).2.1
    ikIterations := (ikRun o).2.2
    qsol := q_sol o
    simTrajectory := fun n => (simStep os)^[n] (simInit o)
    events := scriptEvents o }

/-- A shape is a capsule. -/
def ShapeT.isCapsule : ShapeT → Bool
  | ShapeT.Capsule _ _ => true
  | _ => false

/-! ## Helper lemmas -/

/-- The loop's convergence flag is true exactly when some reachable state
within the fuel satisfies the break condition. -/
lemma ikLoop_flag_iff (o : IKOracle) :
    ∀ (n : ℕ) (s : IKState),
      (ikLoop o n s).2.1 = true ↔ ∃ k < n, convergedCheck o ((ikStep o)^[k] s) := by
  intro n
  induction n with
  | zero => intro s; simp [ikLoop]
  | succ m ih =>
    intro s
    by_cases h : convergedCheck o s
    · rw [show ikLoop o (m + 1) s = (s, true, 1) from by simp [ikLoop, h]]
      simp only [true_iff]
      exact ⟨0, Nat.succ_pos m, by simpa using h⟩
    · rw [show ikLoop o (m + 1) s
          = ((ikLoop o m (ikStep o s)).1, (ikLoop o m (ikStep o s)).2.1,
             (ikLoop o m (ikStep o s)).2.2 + 1) from by simp [ikLoop, h]]
      simp only
      rw [ih (ikStep o s)]
      constructor
      · rintro ⟨k, hk, hc⟩
        exact ⟨k + 1, by omega, by simpa [Function.iterate_succ_apply] using hc⟩
      · rintro ⟨k, hk, hc⟩
        cases k with
        | zero => exact absurd (by simpa using hc) h
        | succ j =>
          exact ⟨j, by omega, by simpa [Function.iterate_succ_apply] using hc⟩

/-- The loop body is entered at most `n` times with fuel `n`. -/
lemma ikLoop_count_le (o : IKOracle) :
    ∀ (n : ℕ) (s : IKState), (ikLoop o n s).2.2 ≤ n := by
  intro n
  induction n with
  | zero => intro s; simp [ikLoop]
  | succ m ih =>
    intro s
    by_cases h : convergedCheck o s
    · simp [ikLoop, h]
    · simpa [ikLoop, h] using ih (ikStep o s)

/-- When the break never fires, the loop body runs exactly `n` times. -/
lemma ikLoop_count_of_not_flag (o : IKOracle) :
    ∀ (n : ℕ) (s : IKState),
      (ikLoop o n s).2.1 = false → (ikLoop o n s).2.2 = n := by
  intro n
  induction n with
  | zero => intro s _; simp [ikLoop]
  | succ m ih =>
    intro s hf
    by_cases h : convergedCheck o s
    · simp [ikLoop, h] at hf
    · have hf' : (ikLoop o m (ikStep o s)).2.1 = false := by
        simpa [ikLoop, h] using hf
      simp [ikLoop, h, ih (ikStep o s) hf']

/-- If no state can satisfy the break condition, the flag stays false. -/
lemma ikLoop_flag_false (o : IKOracle) (hno : ∀ s, ¬ convergedCheck o s) :
    ∀ (n : ℕ) (s : IKState), (ikLoop o n s).2.1 = false := by
  intro n
  induction n with
  | zero => intro s; simp [ikLoop]
  | succ m ih =>
    intro s
    simpa [ikLoop, hno s] using ih (ikStep o s)

/-- Oracle with constant unit constraint value: the primal residual is
always 1, so the break condition never fires. -/
def oneOracle : IKOracle :=
  { constraintValue := fun _ _ => 1
    Jmat := fun _ _ _ => 0
    kktSolve := fun _ _ _ => 0
    integrate := fun q _ => q }

lemma oneOracle_not_converged : ∀ s, ¬ convergedCheck oneOracle s := by
  intro s hc
  have h1 : primal_feas oneOracle s = 1 := by
    simp [primal_feas, oneOracle, infNorm]
  have := hc.1
  rw [h1] at this
  norm_num [eps] at this

/-- Python's float modulo with a positive modulus lands in `[0, y)`. -/
lemma pymod_mem_Ico (x y : ℝ) (hy : 0 < y) : pymod x y ∈ Set.Ico 0 y := by
  have hy' : y ≠ 0 := ne_of_gt hy
  have hfr : pymod x y = y * Int.fract (x / y) := by
    unfold pymod Int.fract
    field_simp
  constructor
  · rw [hfr]
    exact mul_nonneg hy.le (Int.fract_nonneg _)
  · rw [hfr]
    calc y * Int.fract (x / y) < y * 1 :=
          mul_lt_mul_of_pos_left (Int.fract_lt_one _) hy
    _ = y := mul_one y

/-- The time coordinate of the simulation state after `n` loop passes. -/
lemma simIterate_t (os : SimOracle) :
    ∀ (n : ℕ) (s : SimState), ((simStep os)^[n] s).t = s.t + n * dt := by
  intro n
  induction n with
  | zero => intro s; simp
  | succ m ih =>
    intro s
    have hst : ∀ s' : SimState, (simStep os s').t = s'.t + dt := fun _ => rfl
    rw [Function.iterate_succ_apply', hst, ih s]
    push_cast
    ring

/-- Arithmetic fact about the guard threshold: `n * dt ≤ T_sim` exactly
when `n ≤ 20000000`. -/
lemma dt_guard_iff (n : ℕ) : (n : ℝ) * dt ≤ T_sim ↔ n ≤ 20000000 := by
  unfold dt T_sim
  rw [show (100000 : ℝ) = 20000000 * (5 / 1000) by norm_num]
  rw [mul_le_mul_right (by norm_num : (0 : ℝ) < 5 / 1000)]
  exact_mod_cast Iff.rfl

/-- Every event the IK loop emits belongs to the IK phase. -/
lemma ikEventsLoop_phase (o : IKOracle) :
    ∀ (n : ℕ) (s : IKState),
      ((ikEventsLoop o n s).all fun e => phase e == Phase.ik) = true := by
  intro n
  induction n with
  | zero => intro s; simp [ikEventsLoop]
  | succ m ih =>
    intro s
    by_cases h : convergedCheck o s
    · simp [ikEventsLoop, h, ikIterEventsConv, phase]
    · simp only [ikEventsLoop, if_neg h, List.all_append, Bool.and_eq_true]
      exact ⟨by simp [ikIterEventsStep, phase], ih (ikStep o s)⟩

/-- Every event the simulation loop emits belongs to the simulation phase. -/
lemma simEventsLoop_phase :
    ∀ (fuel : ℕ) (t : ℝ),
      ((simEventsLoop fuel t).all fun e => phase e == Phase.simulation) = true := by
  intro fuel
  induction fuel with
  | zero => intro t; simp [simEventsLoop]
  | succ m ih =>
    intro t
    by_cases h : t ≤ T_sim
    · simp only [simEventsLoop, if_pos h, List.all_append, Bool.and_eq_true]
      exact ⟨by simp [simIterEvents, phase], ih (t + dt)⟩
    · simp [simEventsLoop, h]

/-- Each entered IK iteration computes the KKT factorization. -/
lemma ikEventsLoop_count_compute (o : IKOracle) :
    ∀ (n : ℕ) (s : IKState),
      (ikEventsLoop o n s).count Ev.ikKKTCompute = (ikLoop o n s).2.2 := by
  intro n
  induction n with
  | zero => intro s; simp [ikEventsLoop, ikLoop]
  | succ m ih =>
    intro s
    by_cases h : convergedCheck o s
    · simp [ikEventsLoop, ikLoop, h, ikIterEventsConv]
    · simp only [ikEventsLoop, ikLoop, if_neg h, List.count_append]
      rw [ih (ikStep o s)]
      simp [ikIterEventsStep]
      omega

/-- Each entered IK iteration except a breaking one performs the KKT
solve: the solve count plus one for the break equals the iteration count. -/
lemma ikEventsLoop_count_solve (o : IKOracle) :
    ∀ (n : ℕ) (s : IKState),
      (ikEventsLoop o n s).count Ev.ikKKTSolve
        + (if (ikLoop o n s).2.1 = true then 1 else 0) = (ikLoop o n s).2.2 := by
  intro n
  induction n with
  | zero => intro s; simp [ikEventsLoop, ikLoop]
  | succ m ih =>
    intro s
    by_cases h : convergedCheck o s
    · simp [ikEventsLoop, ikLoop, h, ikIterEventsConv]
    · simp only [ikEventsLoop, ikLoop, if_neg h, List.count_append]
      have := ih (ikStep o s)
      simp [ikIterEventsStep]
      omega

/-! ## Claim theorems -/

/-- C1: the IK loop exits early (printing "Convergence achieved") exactly
when both residual norms drop strictly below `eps = 1e-10` at some state
reached within the `N = 100` iterations; on non-convergence nothing is
raised and nothing branches on the flag: `q_sol` is the wrap of the final
configuration in every case, and the trace always reaches the display of
`q_sol`. -/
theorem c1_convergence_diagnosis (o : IKOracle) :
    ((ikRun o).2.1 = true ↔ ∃ k < N, convergedCheck o ((ikStep o)^[k] ikInit))
    ∧ (convergedCheck o = fun s => primal_feas o s < eps ∧ dual_feas o s < eps)
    ∧ q_sol o = (fun i => pymod (((ikRun o).1.q i : ℝ) + Real.pi) Real.pi - Real.pi)
    ∧ Ev.displayQsol ∈ scriptEvents o := by
  refine ⟨ikLoop_flag_iff o N ikInit, rfl, rfl, ?_⟩
  simp [scriptEvents]

/-- C2: the IK loop body is entered at most `N = 100` times, and exactly
`N` times when the convergence break never fires. -/
theorem c2_ik_loop_bounded (o : IKOracle) :
    (ikRun o).2.2 ≤ N ∧ ((ikRun o).2.1 = false → (ikRun o).2.2 = N) :=
  ⟨ikLoop_count_le o N ikInit, ikLoop_count_of_not_flag o N ikInit⟩

/-- Witness for C2: with a constant unit constraint value the break never
fires, and the loop body runs exactly `N` times. -/
theorem c2_ik_loop_bounded_witness : (ikRun oneOracle).2.2 = N :=
  (c2_ik_loop_bounded oneOracle).2
    (ikLoop_flag_false oneOracle oneOracle_not_converged N ikInit)

/-- C3: every component of the displayed solution
`q_sol = (q + π) % π - π` lies in `[-π, 0)`; in particular no component is
ever nonnegative.  (The wrap is modulo `π`, not `2π`.) -/
theorem c3_qsol_range (o : IKOracle) (i : Fin nv) :
    q_sol o i ∈ Set.Ico (-Real.pi) 0 := by
  have h := pymod_mem_Ico (((ikRun o).1.q i : ℝ) + Real.pi) Real.pi Real.pi_pos
  unfold q_sol
  constructor
  · have := h.1
    linarith
  · have := h.2
    linarith

/-- C4: the simulated time after `n` passes of the dynamics loop is
`n * dt`; the guard `t <= T_sim` admits exactly the passes with
`n ≤ 20000000 = T_sim / dt`, so the loop runs finitely many (20000001)
iterations and then terminates. -/
theorem c4_sim_loop_terminates (o : IKOracle) (os : SimOracle) (n : ℕ) :
    ((simStep os)^[n] (simInit o)).t = n * dt
    ∧ (simGuard ((simStep os)^[n] (simInit o)) ↔ n ≤ 20000000)
    ∧ ∃ m : ℕ, ¬ simGuard ((simStep os)^[m] (simInit o)) := by
  have ht : ∀ m : ℕ, ((simStep os)^[m] (simInit o)).t = m * dt := by
    intro m
    rw [simIterate_t os m (simInit o)]
    show (0 : ℝ) + _ = _
    ring
  refine ⟨ht n, ?_, ?_⟩
  · unfold simGuard
    rw [ht n]
    exact dt_guard_iff n
  · refine ⟨20000001, ?_⟩
    unfold simGuard
    rw [ht 20000001]
    intro hle
    have := (dt_guard_iff 20000001).1 hle
    omega

/-- C5: the assembled mechanism is the four-bar chain: exactly three
joints are added (ids 1, 2, 3), all of type `JointModelRY`, carrying the
four capsule geometries `link_A1` (on the base), `link_B1`, `link_A2`,
`link_B2`, and the chain is closed by one `CONTACT_3D` constraint between
`joint3_id` and the base joint at the stated placements. -/
theorem c5_four_bar_structure :
    model.joints =
      [⟨base_joint_id, JointType.RY, joint1_placement, "link_B1"⟩,
        ⟨joint1_id, JointType.RY, joint2_placement, "link_A2"⟩,
        ⟨joint2_id, JointType.RY, joint3_placement, "link_B2"⟩]
    ∧ model.joints.length = 3
    ∧ (joint1_id, joint2_id, joint3_id) = (1, 2, 3)
    ∧ collision_model.geoms.map GeomObj.name
        = ["link_A1", "link_B1", "link_A2", "link_B2"]
    ∧ collision_model.geoms.map GeomObj.parentJoint
        = [base_joint_id, joint1_id, joint2_id, joint3_id]
    ∧ (collision_model.geoms.all fun g => g.shape.isCapsule) = true
    ∧ constraint_model =
        ⟨ContactType.CONTACT_3D, joint3_id, ⟨RotT.Id, (6/10, 0, 0)⟩,
          base_joint_id, ⟨RotT.Id, (-(1/2), 0, 0)⟩⟩
    ∧ constraint_dim = 3 :=
  ⟨rfl, rfl, rfl, rfl, rfl, rfl, rfl, rfl⟩

/-- C6: the script's event trace is the concatenation of four
phase-homogeneous segments in the order construction, visualizer, IK,
simulation (no interleaving or branching between phases); every entered IK
iteration computes the constraint-consistent KKT factorization, and every
iteration that does not break performs the KKT solve. -/
theorem c6_sequential_phases (o : IKOracle) :
    scriptEvents o
      = buildEvents ++ vizEvents ++ (ikEventsLoop o N ikInit ++ [Ev.displayQsol])
          ++ simEventsLoop simFuel 0
    ∧ (buildEvents.all fun e => phase e == Phase.construction) = true
    ∧ (vizEvents.all fun e => phase e == Phase.visualizer) = true
    ∧ ((ikEventsLoop o N ikInit ++ [Ev.displayQsol]).all
        fun e => phase e == Phase.ik) = true
    ∧ ((simEventsLoop simFuel 0).all fun e => phase e == Phase.simulation) = true
    ∧ (ikEventsLoop o N ikInit).count Ev.ikKKTCompute = (ikRun o).2.2
    ∧ (ikEventsLoop o N ikInit).count Ev.ikKKTSolve
        + (if (ikRun o).2.1 = true then 1 else 0) = (ikRun o).2.2 := by
  refine ⟨rfl, by decide, by decide, ?_, simEventsLoop_phase simFuel 0,
    ikEventsLoop_count_compute o N ikInit, ikEventsLoop_count_solve o N ikInit⟩
  simp only [List.all_append, Bool.and_eq_true]
  exact ⟨ikEventsLoop_phase o N ikInit, by decide⟩

/-- C7: each simulation pass is a semi-implicit Euler step with fixed
`dt`: the velocity is updated first with the acceleration returned by
`contactDynamics`, the configuration is then advanced by `integrate` using
the already-updated velocity, time advances by `dt`, and within one pass
the display event comes after both updates. -/
theorem c7_semi_implicit_euler (os : SimOracle) (s : SimState) :
    (simStep os s).v = (fun i => s.v i + os.contactDynamics s.q s.v tau i * dt)
    ∧ (simStep os s).q
        = os.integrate s.q (fun i => (s.v i + os.contactDynamics s.q s.v tau i * dt) * dt)
    ∧ (simStep os s).t = s.t + dt
    ∧ simIterEvents
        = [Ev.simContactDynamics, Ev.simVelUpdate, Ev.simConfigUpdate,
            Ev.simDisplay, Ev.simSleep] :=
  ⟨rfl, rfl, rfl, rfl⟩

/-- C8: since `alpha = 1`, the dual update `y -= alpha*(-dy + y)` returns
exactly `dy`, whatever the previous value of `y` was; hence after a full
IK step the dual variable equals the first `constraint_dim` components of
the KKT solution `dz`. -/
theorem c8_dual_update_identity (o : IKOracle) (s : IKState) :
    ((ikStep o s).y = fun i => o.kktSolve s.q (rhsVec o s) (Fin.castAdd nv i))
    ∧ ∀ (y dy : Fin 3 → ℚ) (i : Fin 3), y i - alpha * (-(dy i) + y i) = dy i := by
  constructor
  · funext i
    show s.y i - alpha * _ = _
    simp [alpha]
  · intro y dy i
    simp [alpha]

/-- C9: the script reads neither the command line nor standard input: its
result (all computed states and the event trace, including the printed
diagnostics) is the same function of the library oracles for any `argv`
and any stdin contents, and its static call inventory contains no
input-reading call. -/
theorem c9_no_cli_no_stdin (argv₁ argv₂ : List String) (in₁ in₂ : String)
    (o : IKOracle) (os : SimOracle) :
    runScript argv₁ in₁ o os = runScript argv₂ in₂ o os
    ∧ (scriptCalls.all fun c => !(isInputRead c)) = true :=
  ⟨rfl, by decide⟩

/-- C10: the script is single-threaded and synchronous: its external calls
form one totally ordered list, and none of them is a thread, process,
lock, async-task, cancellation or timeout primitive. -/
theorem c10_no_concurrency :
    (scriptCalls.all fun c => !(isConcurrencyPrimitive c)) = true
    ∧ scriptCalls.length = 58 := by
  refine ⟨by decide, by decide⟩

end FourBar
